import Mathlib

/-
Verification of the Zephara Xcel home-financing simulator (src/ZX.py).

The computational core of the program consists of two pure simulators,
`zx_simulator` (shared-ownership / buyback scheme, lines 120-187) and
`traditional_loan_simulator` (fixed-rate amortizing loan, lines 189-243),
plus the input validation performed by `main` (lines 22-35) before either
simulator is invoked.  All arithmetic in the source is Python float
arithmetic; it is embedded here over ℚ (exact arithmetic), so source-level
"within floating-point tolerance" statements become exact equalities.
Python raising `ZeroDivisionError` on a zero denominator is embedded as an
explicit `Except` error.
-/

namespace ZX

/-- Failure modes of the embedded engine.  `invalidParameter` corresponds to
the validation errors emitted by `main` (ZX.py lines 22-31); `zeroDivision`
corresponds to Python raising `ZeroDivisionError` on the EMI formula's zero
denominator (ZX.py lines 128 and 195).  `emptySchedule` appears in the spec
but has no counterpart in the source; it is included so that its absence
from every code path can be stated. -/
inductive Err where
  | invalidParameter : Err
  | zeroDivision : Err
  | emptySchedule : Err
deriving DecidableEq

/-- The annuity value `principal * r * (1+r)^T / ((1+r)^T - 1)` appearing
verbatim in ZX.py lines 128 and 195. -/
def annuity (principal r : ℚ) (T : ℕ) : ℚ :=
  (principal * r * (1 + r) ^ T) / ((1 + r) ^ T - 1)

/-- The EMI computation of ZX.py lines 128 / 195.  When the denominator
`(1+r)^T - 1` is zero (e.g. at rate 0) Python raises `ZeroDivisionError`;
this is modelled as an `Except` error.  There is no special case for a zero
rate in the source. -/
def solve_payment (principal r : ℚ) (T : ℕ) : Except Err ℚ :=
  if (1 + r) ^ T - 1 = 0 then Except.error Err.zeroDivision
  else Except.ok (annuity principal r T)

/-- One row of the buyback (Zephara Xcel) schedule: the columns of the
DataFrame built in ZX.py lines 162-171, in order. -/
structure ZXRow where
  month : ℕ
  emi : ℚ
  rental_income : ℚ
  buyback_amount : ℚ
  nbfc_ownership_pct : ℚ
  customer_ownership_pct : ℚ
  nbfc_share_value : ℚ
  customer_share_value : ℚ

/-- One row of the fixed-loan schedule: the columns of the DataFrame built
in ZX.py lines 221-227, in order. -/
structure LoanRow where
  month : ℕ
  emi : ℚ
  interest_paid : ℚ
  principal_paid : ℚ
  outstanding_balance : ℚ

/-- The simulation loop of `zx_simulator` (ZX.py lines 144-159): starting
from shares `(nb, cu)` at month `m`, run `k` more periods.  Each period
computes `rental = nb * r`, `buyback = EMI - rental`, updates the two share
values, and emits a row holding the post-update values together with the
ownership percentages `value / property_price * 100`. -/
def zxRows (r EMI price : ℚ) : ℚ → ℚ → ℕ → ℕ → List ZXRow
  | _, _, _, 0 => []
  | nb, cu, m, k + 1 =>
    let rental := nb * r
    let buyback := EMI - rental
    let nb2 := nb - buyback
    let cu2 := cu + buyback
    ⟨m, EMI, rental, buyback, nb2 / price * 100, cu2 / price * 100, nb2, cu2⟩ ::
      zxRows r EMI price nb2 cu2 (m + 1) k

/-- The simulation loop of `traditional_loan_simulator` (ZX.py lines
207-218): starting from balance `bal` at month `m`, run `k` more periods.
Each period computes `interest = bal * r`, `principal = EMI - interest`,
reduces the balance, and emits a row holding the post-update balance. -/
def loanRows (r EMI : ℚ) : ℚ → ℕ → ℕ → List LoanRow
  | _, _, 0 => []
  | bal, m, k + 1 =>
    let interest := bal * r
    let principal := EMI - interest
    let bal2 := bal - principal
    ⟨m, EMI, interest, principal, bal2⟩ :: loanRows r EMI bal2 (m + 1) k

/-- Metrics of the buyback scheme (ZX.py lines 179-185). -/
structure ZXMetrics where
  monthly_payment : ℚ
  total_emi_paid : ℚ
  total_rental_income : ℚ
  total_buyback_amount : ℚ
  bank_profit : ℚ

/-- Metrics of the fixed-loan scheme (ZX.py lines 235-241). -/
structure LoanMetrics where
  monthly_payment : ℚ
  total_emi_paid : ℚ
  total_interest_paid : ℚ
  total_principal_paid : ℚ
  bank_profit : ℚ

/-- Metrics aggregation of `zx_simulator` (ZX.py lines 173-185): column
sums of the schedule; bank profit is the total rental income.  The source
has no error path here: a sum over zero rows is simply 0. -/
def zxAggregate (EMI : ℚ) (rows : List ZXRow) : ZXMetrics :=
  let total_emi := (rows.map ZXRow.emi).sum
  let total_rental := (rows.map ZXRow.rental_income).sum
  let total_buyback := (rows.map ZXRow.buyback_amount).sum
  ⟨EMI, total_emi, total_rental, total_buyback, total_rental⟩

/-- Metrics aggregation of `traditional_loan_simulator` (ZX.py lines
229-241): column sums; bank profit is the total interest paid.  The source
has no error path here: a sum over zero rows is simply 0. -/
def loanAggregate (EMI : ℚ) (rows : List LoanRow) : LoanMetrics :=
  let total_emi := (rows.map LoanRow.emi).sum
  let total_interest := (rows.map LoanRow.interest_paid).sum
  let total_principal := (rows.map LoanRow.principal_paid).sum
  ⟨EMI, total_emi, total_interest, total_principal, total_interest⟩

/-- `zx_simulator` (ZX.py lines 120-187): derived lender contribution and
monthly rate, EMI via the annuity formula, then the simulation loop and the
metrics.  The `Except` layer carries only the possible `ZeroDivisionError`
of the EMI formula; the function itself performs no validation (that
happens in `main`). -/
def zx_simulator (property_price customer_initial_contribution annual_rental_yield : ℚ)
    (loan_tenure_months : ℕ) : Except Err (List ZXRow × ZXMetrics) :=
  let nbfc_initial_contribution := property_price - customer_initial_contribution
  let r := annual_rental_yield / 12
  (solve_payment nbfc_initial_contribution r loan_tenure_months).map fun EMI =>
    let rows := zxRows r EMI property_price nbfc_initial_contribution
      customer_initial_contribution 1 loan_tenure_months
    (rows, zxAggregate EMI rows)

/-- `traditional_loan_simulator` (ZX.py lines 189-243): monthly rate, EMI
via the annuity formula, the simulation loop and the metrics.  No
validation is performed here. -/
def traditional_loan_simulator (principal_amount annual_interest_rate : ℚ)
    (loan_tenure_months : ℕ) : Except Err (List LoanRow × LoanMetrics) :=
  let r := annual_interest_rate / 12
  (solve_payment principal_amount r loan_tenure_months).map fun EMI =>
    let rows := loanRows r EMI principal_amount 1 loan_tenure_months
    (rows, loanAggregate EMI rows)

/-- The buyback simulation entry point as the spec's §6 interface exposes
it: the validation performed by `main` (ZX.py lines 22-31, in source
order: contribution vs price, yield range, positive tenure) followed by
`zx_simulator`.  The term is given directly in periods (months), as `main`
converts years to months before calling the simulator (line 34). -/
def simulate_buyback (property_price customer_initial_contribution annual_rental_yield : ℚ)
    (term_periods : ℤ) : Except Err (List ZXRow × ZXMetrics) :=
  if property_price ≤ customer_initial_contribution then Except.error Err.invalidParameter
  else if annual_rental_yield ≤ 0 ∨ 1 ≤ annual_rental_yield then Except.error Err.invalidParameter
  else if term_periods ≤ 0 then Except.error Err.invalidParameter
  else zx_simulator property_price customer_initial_contribution annual_rental_yield
    term_periods.toNat

/-- The fixed-loan simulation entry point as the spec's §6 interface
exposes it: `main` validates only that the tenure is positive (ZX.py lines
29-31) before calling `traditional_loan_simulator` (line 47); the interest
rate is not range-checked in the source.  The term is given directly in
periods (months). -/
def simulate_fixed_loan (principal annual_interest_rate : ℚ)
    (term_periods : ℤ) : Except Err (List LoanRow × LoanMetrics) :=
  if term_periods ≤ 0 then Except.error Err.invalidParameter
  else traditional_loan_simulator principal annual_interest_rate term_periods.toNat

/-- The balance recurrence shared by both simulation loops: one period turns
`b` into `b - (EMI - b * r)`.  `balIter r EMI b n` is the value after `n`
periods starting from `b`. -/
def balIter (r EMI : ℚ) : ℚ → ℕ → ℚ
  | b, 0 => b
  | b, n + 1 => balIter r EMI (b - (EMI - b * r)) n

lemma balIter_succ_bot (r EMI b : ℚ) (n : ℕ) :
    balIter r EMI b (n + 1) = balIter r EMI (b - (EMI - b * r)) n := rfl

lemma balIter_succ_top (r EMI b : ℚ) (n : ℕ) :
    balIter r EMI b (n + 1) = balIter r EMI b n - (EMI - balIter r EMI b n * r) := by
  induction n generalizing b with
  | zero => simp [balIter]
  | succ n ih =>
    rw [balIter_succ_bot r EMI b (n + 1), ih, ← balIter_succ_bot]

lemma balIter_closed (r EMI : ℚ) (hr : r ≠ 0) (b : ℚ) (n : ℕ) :
    balIter r EMI b n = b * (1 + r) ^ n - EMI * ((1 + r) ^ n - 1) / r := by
  induction n generalizing b with
  | zero => simp [balIter]
  | succ n ih =>
    rw [balIter_succ_bot, ih]
    field_simp
    ring

lemma denom_pos {r : ℚ} (hr : 0 < r) {T : ℕ} (hT : T ≠ 0) : 0 < (1 + r) ^ T - 1 := by
  have h1 : (1 : ℚ) < 1 + r := by linarith
  have h2 : (1 : ℚ) < (1 + r) ^ T := one_lt_pow₀ h1 hT
  linarith

lemma annuity_sub_interest (P r : ℚ) (T : ℕ) (hr : 0 < r) (hT : T ≠ 0) (n : ℕ) :
    annuity P r T - balIter r (annuity P r T) P n * r
      = (1 + r) ^ n * r * P / ((1 + r) ^ T - 1) := by
  have hd : (1 + r) ^ T - 1 ≠ 0 := ne_of_gt (denom_pos hr hT)
  rw [balIter_closed _ _ (ne_of_gt hr), annuity]
  field_simp
  ring

lemma annuity_sub_interest_pos (P r : ℚ) (T : ℕ) (hP : 0 < P) (hr : 0 < r) (hT : T ≠ 0)
    (n : ℕ) : 0 < annuity P r T - balIter r (annuity P r T) P n * r := by
  rw [annuity_sub_interest P r T hr hT n]
  have h1 : (0 : ℚ) < (1 + r) ^ n * r * P := by positivity
  exact div_pos h1 (denom_pos hr hT)

lemma balIter_annuity_strictAnti (P r : ℚ) (T : ℕ) (hP : 0 < P) (hr : 0 < r) (hT : T ≠ 0) :
    StrictAnti (balIter r (annuity P r T) P) := by
  refine strictAnti_nat_of_succ_lt fun n => ?_
  rw [balIter_succ_top]
  have h := annuity_sub_interest_pos P r T hP hr hT n
  linarith

lemma balIter_annuity_final (P r : ℚ) (T : ℕ) (hr : r ≠ 0)
    (hd : (1 + r) ^ T - 1 ≠ 0) : balIter r (annuity P r T) P T = 0 := by
  rw [balIter_closed _ _ hr, annuity]
  field_simp
  ring

lemma loanRows_length (r EMI b : ℚ) (m k : ℕ) : (loanRows r EMI b m k).length = k := by
  induction k generalizing b m with
  | zero => simp [loanRows]
  | succ k ih => simp [loanRows, ih]

lemma zxRows_length (r EMI price nb cu : ℚ) (m k : ℕ) :
    (zxRows r EMI price nb cu m k).length = k := by
  induction k generalizing nb cu m with
  | zero => simp [zxRows]
  | succ k ih => simp [zxRows, ih]

lemma loanRows_getElem? (r EMI b : ℚ) (m k i : ℕ) (h : i < k) :
    (loanRows r EMI b m k)[i]? =
      some ⟨m + i, EMI, balIter r EMI b i * r, EMI - balIter r EMI b i * r,
            balIter r EMI b (i + 1)⟩ := by
  induction k generalizing b m i with
  | zero => omega
  | succ k ih =>
    cases i with
    | zero =>
      simp [loanRows, balIter]
    | succ j =>
      have hj : j < k := by omega
      have hshift : ∀ n, balIter r EMI (b - (EMI - b * r)) n = balIter r EMI b (n + 1) :=
        fun n => rfl
      simp only [loanRows, List.getElem?_cons_succ]
      rw [ih _ _ _ hj]
      simp only [Option.some.injEq, LoanRow.mk.injEq, hshift, true_and, and_true]
      omega

lemma zxRows_getElem? (r EMI price nb cu : ℚ) (m k i : ℕ) (h : i < k) :
    (zxRows r EMI price nb cu m k)[i]? =
      some ⟨m + i, EMI, balIter r EMI nb i * r, EMI - balIter r EMI nb i * r,
            balIter r EMI nb (i + 1) / price * 100,
            (cu + (nb - balIter r EMI nb (i + 1))) / price * 100,
            balIter r EMI nb (i + 1),
            cu + (nb - balIter r EMI nb (i + 1))⟩ := by
  induction k generalizing nb cu m i with
  | zero => omega
  | succ k ih =>
    cases i with
    | zero =>
      have hb1 : balIter r EMI nb (0 + 1) = nb - (EMI - nb * r) := rfl
      simp only [zxRows, List.getElem?_cons_zero, Option.some.injEq, ZXRow.mk.injEq,
        hb1, true_and, and_true]
      simp only [balIter]
      repeat' apply And.intro
      all_goals first | trivial | omega | ring
    | succ j =>
      have hj : j < k := by omega
      have hshift : ∀ n, balIter r EMI (nb - (EMI - nb * r)) n = balIter r EMI nb (n + 1) :=
        fun n => rfl
      simp only [zxRows, List.getElem?_cons_succ]
      rw [ih _ _ _ _ hj]
      simp only [Option.some.injEq, ZXRow.mk.injEq, hshift, true_and, and_true]
      repeat' apply And.intro
      all_goals first | trivial | omega | ring

lemma zxRows_mem_split (r EMI price : ℚ) :
    ∀ (nb cu : ℚ) (m k : ℕ), ∀ row ∈ zxRows r EMI price nb cu m k,
      row.emi = EMI ∧ row.emi = row.rental_income + row.buyback_amount := by
  intro nb cu m k
  induction k generalizing nb cu m with
  | zero => simp [zxRows]
  | succ k ih =>
    intro row hrow
    simp only [zxRows, List.mem_cons] at hrow
    rcases hrow with h | h
    · subst h
      exact ⟨rfl, by ring⟩
    · exact ih _ _ _ row h

lemma loanRows_mem_split (r EMI : ℚ) :
    ∀ (b : ℚ) (m k : ℕ), ∀ row ∈ loanRows r EMI b m k,
      row.emi = EMI ∧ row.emi = row.interest_paid + row.principal_paid := by
  intro b m k
  induction k generalizing b m with
  | zero => simp [loanRows]
  | succ k ih =>
    intro row hrow
    simp only [loanRows, List.mem_cons] at hrow
    rcases hrow with h | h
    · subst h
      exact ⟨rfl, by ring⟩
    · exact ih _ _ row h

lemma zxRows_mem_ownership (r EMI price : ℚ) (hprice : price ≠ 0) :
    ∀ (nb cu : ℚ) (m k : ℕ), nb + cu = price →
      ∀ row ∈ zxRows r EMI price nb cu m k,
        row.nbfc_share_value + row.customer_share_value = price ∧
        row.nbfc_ownership_pct + row.customer_ownership_pct = 100 := by
  intro nb cu m k
  induction k generalizing nb cu m with
  | zero => simp [zxRows]
  | succ k ih =>
    intro hsum row hrow
    simp only [zxRows, List.mem_cons] at hrow
    rcases hrow with h | h
    · subst h
      constructor
      · simp only
        linarith
      · simp only
        have : (nb - (EMI - nb * r)) / price * 100 + (cu + (EMI - nb * r)) / price * 100
            = (nb + cu) / price * 100 := by ring
        rw [this, hsum, div_self hprice]
        norm_num
    · exact ih _ _ _ (by linarith) row h

lemma zxRows_sum_split (r EMI price : ℚ) :
    ∀ (nb cu : ℚ) (m k : ℕ),
      ((zxRows r EMI price nb cu m k).map ZXRow.emi).sum =
        ((zxRows r EMI price nb cu m k).map ZXRow.rental_income).sum +
          ((zxRows r EMI price nb cu m k).map ZXRow.buyback_amount).sum := by
  intro nb cu m k
  induction k generalizing nb cu m with
  | zero => simp [zxRows]
  | succ k ih =>
    simp only [zxRows, List.map_cons, List.sum_cons]
    rw [ih]
    ring

lemma loanRows_sum_split (r EMI : ℚ) :
    ∀ (b : ℚ) (m k : ℕ),
      ((loanRows r EMI b m k).map LoanRow.emi).sum =
        ((loanRows r EMI b m k).map LoanRow.interest_paid).sum +
          ((loanRows r EMI b m k).map LoanRow.principal_paid).sum := by
  intro b m k
  induction k generalizing b m with
  | zero => simp [loanRows]
  | succ k ih =>
    simp only [loanRows, List.map_cons, List.sum_cons]
    rw [ih]
    ring

lemma solve_payment_ok (P r : ℚ) (T : ℕ) (hd : (1 + r) ^ T - 1 ≠ 0) :
    solve_payment P r T = Except.ok (annuity P r T) := by
  simp [solve_payment, hd]

lemma traditional_loan_simulator_eq (P rate : ℚ) (T : ℕ) (hr : 0 < rate) (hT : T ≠ 0) :
    traditional_loan_simulator P rate T =
      Except.ok (loanRows (rate / 12) (annuity P (rate / 12) T) P 1 T,
        loanAggregate (annuity P (rate / 12) T)
          (loanRows (rate / 12) (annuity P (rate / 12) T) P 1 T)) := by
  have hr12 : 0 < rate / 12 := by positivity
  unfold traditional_loan_simulator
  dsimp only
  rw [solve_payment_ok _ _ _ (ne_of_gt (denom_pos hr12 hT))]
  rfl

lemma zx_simulator_eq (price contrib yld : ℚ) (T : ℕ) (hy : 0 < yld) (hT : T ≠ 0) :
    zx_simulator price contrib yld T =
      Except.ok (zxRows (yld / 12) (annuity (price - contrib) (yld / 12) T) price
          (price - contrib) contrib 1 T,
        zxAggregate (annuity (price - contrib) (yld / 12) T)
          (zxRows (yld / 12) (annuity (price - contrib) (yld / 12) T) price
            (price - contrib) contrib 1 T)) := by
  have hy12 : 0 < yld / 12 := by positivity
  unfold zx_simulator
  dsimp only
  rw [solve_payment_ok _ _ _ (ne_of_gt (denom_pos hy12 hT))]
  rfl

lemma simulate_fixed_loan_eq (P rate : ℚ) (T : ℤ) (hr : 0 < rate) (hT : 1 ≤ T) :
    simulate_fixed_loan P rate T =
      Except.ok (loanRows (rate / 12) (annuity P (rate / 12) T.toNat) P 1 T.toNat,
        loanAggregate (annuity P (rate / 12) T.toNat)
          (loanRows (rate / 12) (annuity P (rate / 12) T.toNat) P 1 T.toNat)) := by
  unfold simulate_fixed_loan
  rw [if_neg (by omega)]
  exact traditional_loan_simulator_eq P rate T.toNat hr (by omega)

lemma simulate_buyback_eq (price contrib yld : ℚ) (T : ℤ)
    (h1 : contrib < price) (h2 : 0 < yld) (h3 : yld < 1) (hT : 1 ≤ T) :
    simulate_buyback price contrib yld T =
      Except.ok (zxRows (yld / 12) (annuity (price - contrib) (yld / 12) T.toNat) price
          (price - contrib) contrib 1 T.toNat,
        zxAggregate (annuity (price - contrib) (yld / 12) T.toNat)
          (zxRows (yld / 12) (annuity (price - contrib) (yld / 12) T.toNat) price
            (price - contrib) contrib 1 T.toNat)) := by
  unfold simulate_buyback
  rw [if_neg (not_le.mpr h1), if_neg (by push_neg; exact ⟨h2, h3⟩), if_neg (by omega)]
  exact zx_simulator_eq price contrib yld T.toNat h2 (by omega)

lemma loanRows_get (r EMI b : ℚ) (m k n : ℕ) (hn : n < k)
    (hn2 : n < (loanRows r EMI b m k).length) :
    (loanRows r EMI b m k).get ⟨n, hn2⟩ =
      ⟨m + n, EMI, balIter r EMI b n * r, EMI - balIter r EMI b n * r,
        balIter r EMI b (n + 1)⟩ := by
  have h := List.getElem?_eq_getElem hn2
  rw [loanRows_getElem? _ _ _ _ _ _ hn] at h
  rw [List.get_eq_getElem, ← Option.some.inj h]

lemma zxRows_get (r EMI price nb cu : ℚ) (m k n : ℕ) (hn : n < k)
    (hn2 : n < (zxRows r EMI price nb cu m k).length) :
    (zxRows r EMI price nb cu m k).get ⟨n, hn2⟩ =
      ⟨m + n, EMI, balIter r EMI nb n * r, EMI - balIter r EMI nb n * r,
        balIter r EMI nb (n + 1) / price * 100,
        (cu + (nb - balIter r EMI nb (n + 1))) / price * 100,
        balIter r EMI nb (n + 1),
        cu + (nb - balIter r EMI nb (n + 1))⟩ := by
  have h := List.getElem?_eq_getElem hn2
  rw [zxRows_getElem? _ _ _ _ _ _ _ _ hn] at h
  rw [List.get_eq_getElem, ← Option.some.inj h]

/-- C1: for every fixed-loan simulation with `principal > 0`,
`annual_interest_rate > 0` and integer `term_periods ≥ 1`, the simulation
succeeds, the outstanding balance emitted after the final period is exactly
zero (hence within any tolerance of zero), and the sequence of outstanding
balances emitted across periods `1..term_periods` is strictly decreasing. -/
theorem fixed_loan_final_zero_and_strictly_decreasing
    (P rate : ℚ) (T : ℤ) (hP : 0 < P) (hr : 0 < rate) (hT : 1 ≤ T) :
    ∃ sched metrics,
      simulate_fixed_loan P rate T = Except.ok (sched, metrics) ∧
      sched.length = T.toNat ∧
      (∀ row, sched.getLast? = some row → row.outstanding_balance = 0) ∧
      (∀ i j (hij : i < j) (hj : j < sched.length),
        (sched.get ⟨j, hj⟩).outstanding_balance <
          (sched.get ⟨i, lt_trans hij hj⟩).outstanding_balance) := by
  have hr12 : 0 < rate / 12 := by positivity
  have hTn : T.toNat ≠ 0 := by omega
  refine ⟨_, _, simulate_fixed_loan_eq P rate T hr hT, loanRows_length _ _ _ _ _, ?_, ?_⟩
  · intro row hlast
    rw [List.getLast?_eq_getElem?, loanRows_length,
      loanRows_getElem? _ _ _ _ _ _ (show T.toNat - 1 < T.toNat by omega)] at hlast
    rw [← Option.some.inj hlast]
    show balIter (rate / 12) (annuity P (rate / 12) T.toNat) P (T.toNat - 1 + 1) = 0
    rw [show T.toNat - 1 + 1 = T.toNat by omega]
    exact balIter_annuity_final P (rate / 12) T.toNat (ne_of_gt hr12)
      (ne_of_gt (denom_pos hr12 hTn))
  · intro i j hij hj
    have hjlen : j < T.toNat := by rwa [loanRows_length] at hj
    have hilen : i < T.toNat := lt_trans hij hjlen
    rw [loanRows_get _ _ _ _ _ _ hjlen, loanRows_get _ _ _ _ _ _ hilen]
    exact balIter_annuity_strictAnti P (rate / 12) T.toNat hP hr12 hTn (by omega)

/-- Witness for C1 at `principal = 1200`, `annual_interest_rate = 12`,
`term_periods = 2`. -/
theorem fixed_loan_final_zero_and_strictly_decreasing_witness :
    ((0 : ℚ) < 1200 ∧ (0 : ℚ) < 12 ∧ (1 : ℤ) ≤ 2) ∧
    (∃ sched metrics,
      simulate_fixed_loan 1200 12 2 = Except.ok (sched, metrics) ∧
      sched.length = (2 : ℤ).toNat ∧
      (∀ row, sched.getLast? = some row → row.outstanding_balance = 0) ∧
      (∀ i j (hij : i < j) (hj : j < sched.length),
        (sched.get ⟨j, hj⟩).outstanding_balance <
          (sched.get ⟨i, lt_trans hij hj⟩).outstanding_balance)) :=
  ⟨⟨by norm_num, by norm_num, by norm_num⟩,
    fixed_loan_final_zero_and_strictly_decreasing 1200 12 2 (by norm_num) (by norm_num) (by norm_num)⟩

/-- C2: for every buyback simulation with `property_price > 0`,
`0 ≤ customer_initial_contribution < property_price`, `annual_yield_rate`
in `(0,1)` and integer `term_periods ≥ 1`, the simulation succeeds and
every emitted row satisfies `lender_value + customer_value = property_price`
and lender percentage + customer percentage = 100, both exactly (hence
within tolerance). -/
theorem buyback_ownership_sums
    (price contrib yld : ℚ) (T : ℤ)
    (hp : 0 < price) (_hc0 : 0 ≤ contrib) (hc : contrib < price)
    (hy0 : 0 < yld) (hy1 : yld < 1) (hT : 1 ≤ T) :
    ∃ sched metrics,
      simulate_buyback price contrib yld T = Except.ok (sched, metrics) ∧
      ∀ row ∈ sched,
        row.nbfc_share_value + row.customer_share_value = price ∧
        row.nbfc_ownership_pct + row.customer_ownership_pct = 100 := by
  refine ⟨_, _, simulate_buyback_eq price contrib yld T hc hy0 hy1 hT, ?_⟩
  exact zxRows_mem_ownership _ _ _ (ne_of_gt hp) _ _ _ _ (by ring)

/-- Witness for C2 at `property_price = 1200`, contribution `200`, yield
`1/2`, `term_periods = 2`. -/
theorem buyback_ownership_sums_witness :
    ((0 : ℚ) < 1200 ∧ (0 : ℚ) ≤ 200 ∧ (200 : ℚ) < 1200 ∧ (0 : ℚ) < 1/2 ∧
      (1 : ℚ)/2 < 1 ∧ (1 : ℤ) ≤ 2) ∧
    (∃ sched metrics,
      simulate_buyback 1200 200 (1/2) 2 = Except.ok (sched, metrics) ∧
      ∀ row ∈ sched,
        row.nbfc_share_value + row.customer_share_value = 1200 ∧
        row.nbfc_ownership_pct + row.customer_ownership_pct = 100) :=
  ⟨⟨by norm_num, by norm_num, by norm_num, by norm_num, by norm_num, by norm_num⟩,
    buyback_ownership_sums 1200 200 (1/2) 2 (by norm_num) (by norm_num) (by norm_num) (by norm_num)
      (by norm_num) (by norm_num)⟩

/-- C4: the buyback entry point rejects, with `InvalidParameter` and no
partial schedule, every input with `customer_initial_contribution ≥
property_price`, every input with `annual_yield_rate ≤ 0` or `≥ 1`, and
every input with `term_periods ≤ 0`. -/
theorem buyback_invalid_inputs_rejected
    (price contrib yld : ℚ) (T : ℤ)
    (h : price ≤ contrib ∨ yld ≤ 0 ∨ 1 ≤ yld ∨ T ≤ 0) :
    simulate_buyback price contrib yld T = Except.error Err.invalidParameter := by
  unfold simulate_buyback
  by_cases h1 : price ≤ contrib
  · rw [if_pos h1]
  · rw [if_neg h1]
    by_cases h2 : yld ≤ 0 ∨ 1 ≤ yld
    · rw [if_pos h2]
    · rw [if_neg h2]
      have h4 : T ≤ 0 := by tauto
      rw [if_pos h4]

/-- Witness for C4 at a contribution equal to the property price. -/
theorem buyback_invalid_inputs_rejected_witness :
    ((1200 : ℚ) ≤ 1200 ∨ (1/2 : ℚ) ≤ 0 ∨ (1 : ℚ) ≤ 1/2 ∨ (2 : ℤ) ≤ 0) ∧
    simulate_buyback 1200 1200 (1/2) 2 = Except.error Err.invalidParameter :=
  ⟨by norm_num,
    buyback_invalid_inputs_rejected 1200 1200 (1/2) 2 (by norm_num)⟩

/-- C5: in every row of either schedule, for all inputs accepted by the
validation, the payment equals the sum of its two components:
`EMI = rental_income + buyback_amount` in every buyback row and
`EMI = interest_paid + principal_paid` in every fixed-loan row. -/
theorem payment_equals_sum_of_components
    (price contrib yld P rate : ℚ) (T U : ℤ)
    (hc : contrib < price) (hy0 : 0 < yld) (hy1 : yld < 1) (hT : 1 ≤ T)
    (hr : 0 < rate) (hU : 1 ≤ U) :
    ∃ s1 m1 s2 m2,
      simulate_buyback price contrib yld T = Except.ok (s1, m1) ∧
      simulate_fixed_loan P rate U = Except.ok (s2, m2) ∧
      (∀ row ∈ s1, row.emi = row.rental_income + row.buyback_amount) ∧
      (∀ row ∈ s2, row.emi = row.interest_paid + row.principal_paid) := by
  refine ⟨_, _, _, _, simulate_buyback_eq price contrib yld T hc hy0 hy1 hT,
    simulate_fixed_loan_eq P rate U hr hU, ?_, ?_⟩
  · intro row h
    exact (zxRows_mem_split _ _ _ _ _ _ _ row h).2
  · intro row h
    exact (loanRows_mem_split _ _ _ _ _ row h).2

/-- Witness for C5 at concrete inputs for both schemes. -/
theorem payment_equals_sum_of_components_witness :
    ((200 : ℚ) < 1200 ∧ (0 : ℚ) < 1/2 ∧ (1 : ℚ)/2 < 1 ∧ (1 : ℤ) ≤ 2 ∧
      (0 : ℚ) < 12 ∧ (1 : ℤ) ≤ 3) ∧
    (∃ s1 m1 s2 m2,
      simulate_buyback 1200 200 (1/2) 2 = Except.ok (s1, m1) ∧
      simulate_fixed_loan 1000 12 3 = Except.ok (s2, m2) ∧
      (∀ row ∈ s1, row.emi = row.rental_income + row.buyback_amount) ∧
      (∀ row ∈ s2, row.emi = row.interest_paid + row.principal_paid)) :=
  ⟨⟨by norm_num, by norm_num, by norm_num, by norm_num, by norm_num, by norm_num⟩,
    payment_equals_sum_of_components 1200 200 (1/2) 1000 12 2 3 (by norm_num) (by norm_num)
      (by norm_num) (by norm_num) (by norm_num) (by norm_num)⟩

/-- C6: for every buyback simulation with valid inputs, the sequence of
lender (NBFC) ownership values across the schedule's rows is non-increasing
and the sequence of customer ownership values is non-decreasing. -/
theorem buyback_ownership_monotone
    (price contrib yld : ℚ) (T : ℤ)
    (_hp : 0 < price) (_hc0 : 0 ≤ contrib) (hc : contrib < price)
    (hy0 : 0 < yld) (hy1 : yld < 1) (hT : 1 ≤ T) :
    ∃ sched metrics,
      simulate_buyback price contrib yld T = Except.ok (sched, metrics) ∧
      ∀ i j (hij : i ≤ j) (hj : j < sched.length),
        (sched.get ⟨j, hj⟩).nbfc_share_value ≤
          (sched.get ⟨i, lt_of_le_of_lt hij hj⟩).nbfc_share_value ∧
        (sched.get ⟨i, lt_of_le_of_lt hij hj⟩).customer_share_value ≤
          (sched.get ⟨j, hj⟩).customer_share_value := by
  have hy12 : 0 < yld / 12 := by positivity
  have hTn : T.toNat ≠ 0 := by omega
  have hP0 : 0 < price - contrib := by linarith
  refine ⟨_, _, simulate_buyback_eq price contrib yld T hc hy0 hy1 hT, ?_⟩
  intro i j hij hj
  have hjlen : j < T.toNat := by rwa [zxRows_length] at hj
  have hilen : i < T.toNat := lt_of_le_of_lt hij hjlen
  rw [zxRows_get _ _ _ _ _ _ _ _ hjlen, zxRows_get _ _ _ _ _ _ _ _ hilen]
  have hmono :=
    (balIter_annuity_strictAnti (price - contrib) (yld / 12) T.toNat hP0 hy12 hTn).antitone
  have h1 : balIter (yld / 12) (annuity (price - contrib) (yld / 12) T.toNat)
        (price - contrib) (j + 1) ≤
      balIter (yld / 12) (annuity (price - contrib) (yld / 12) T.toNat)
        (price - contrib) (i + 1) :=
    hmono (by omega)
  dsimp only
  exact ⟨h1, by linarith⟩

/-- Witness for C6 at `property_price = 1200`, contribution `200`, yield
`1/2`, `term_periods = 2`. -/
theorem buyback_ownership_monotone_witness :
    ((0 : ℚ) < 1200 ∧ (0 : ℚ) ≤ 200 ∧ (200 : ℚ) < 1200 ∧ (0 : ℚ) < 1/2 ∧
      (1 : ℚ)/2 < 1 ∧ (1 : ℤ) ≤ 2) ∧
    (∃ sched metrics,
      simulate_buyback 1200 200 (1/2) 2 = Except.ok (sched, metrics) ∧
      ∀ i j (hij : i ≤ j) (hj : j < sched.length),
        (sched.get ⟨j, hj⟩).nbfc_share_value ≤
          (sched.get ⟨i, lt_of_le_of_lt hij hj⟩).nbfc_share_value ∧
        (sched.get ⟨i, lt_of_le_of_lt hij hj⟩).customer_share_value ≤
          (sched.get ⟨j, hj⟩).customer_share_value) :=
  ⟨⟨by norm_num, by norm_num, by norm_num, by norm_num, by norm_num, by norm_num⟩,
    buyback_ownership_monotone 1200 200 (1/2) 2 (by norm_num) (by norm_num) (by norm_num)
      (by norm_num) (by norm_num) (by norm_num)⟩

/-- C7: for all inputs accepted by the validation, the aggregated metrics of
either scheme reconcile exactly: the sum of the payment column equals the sum
of the interest/rental column plus the sum of the principal/buyback column. -/
theorem totals_reconcile
    (price contrib yld P rate : ℚ) (T U : ℤ)
    (hc : contrib < price) (hy0 : 0 < yld) (hy1 : yld < 1) (hT : 1 ≤ T)
    (hr : 0 < rate) (hU : 1 ≤ U) :
    ∃ s1 m1 s2 m2,
      simulate_buyback price contrib yld T = Except.ok (s1, m1) ∧
      simulate_fixed_loan P rate U = Except.ok (s2, m2) ∧
      m1.total_emi_paid = m1.total_rental_income + m1.total_buyback_amount ∧
      m2.total_emi_paid = m2.total_interest_paid + m2.total_principal_paid := by
  refine ⟨_, _, _, _, simulate_buyback_eq price contrib yld T hc hy0 hy1 hT,
    simulate_fixed_loan_eq P rate U hr hU, ?_, ?_⟩
  · exact zxRows_sum_split _ _ _ _ _ _ _
  · exact loanRows_sum_split _ _ _ _ _

/-- Witness for C7 at concrete inputs for both schemes. -/
theorem totals_reconcile_witness :
    ((200 : ℚ) < 1200 ∧ (0 : ℚ) < 1/2 ∧ (1 : ℚ)/2 < 1 ∧ (1 : ℤ) ≤ 2 ∧
      (0 : ℚ) < 12 ∧ (1 : ℤ) ≤ 3) ∧
    (∃ s1 m1 s2 m2,
      simulate_buyback 1200 200 (1/2) 2 = Except.ok (s1, m1) ∧
      simulate_fixed_loan 1000 12 3 = Except.ok (s2, m2) ∧
      m1.total_emi_paid = m1.total_rental_income + m1.total_buyback_amount ∧
      m2.total_emi_paid = m2.total_interest_paid + m2.total_principal_paid) :=
  ⟨⟨by norm_num, by norm_num, by norm_num, by norm_num, by norm_num, by norm_num⟩,
    totals_reconcile 1200 200 (1/2) 1000 12 2 3 (by norm_num) (by norm_num) (by norm_num)
      (by norm_num) (by norm_num) (by norm_num)⟩

/-- C10: under the parameter mapping `principal = property_price -
customer_initial_contribution` with the same annual rate and term, the
buyback simulation and the fixed-loan simulation produce the same payment,
and period by period the buyback row's rental income equals the loan row's
interest, its buyback amount equals the loan row's principal component, and
its lender (NBFC) ownership value equals the loan row's outstanding
balance: the two recurrences are the same computation. -/
theorem buyback_refines_fixed_loan
    (price contrib rate : ℚ) (T : ℤ)
    (_hp : 0 < price) (_hc0 : 0 ≤ contrib) (hc : contrib < price)
    (hr0 : 0 < rate) (hr1 : rate < 1) (hT : 1 ≤ T) :
    ∃ s1 m1 s2 m2,
      simulate_buyback price contrib rate T = Except.ok (s1, m1) ∧
      simulate_fixed_loan (price - contrib) rate T = Except.ok (s2, m2) ∧
      m1.monthly_payment = m2.monthly_payment ∧
      s1.length = s2.length ∧
      ∀ i (h1 : i < s1.length) (h2 : i < s2.length),
        (s1.get ⟨i, h1⟩).rental_income = (s2.get ⟨i, h2⟩).interest_paid ∧
        (s1.get ⟨i, h1⟩).buyback_amount = (s2.get ⟨i, h2⟩).principal_paid ∧
        (s1.get ⟨i, h1⟩).nbfc_share_value = (s2.get ⟨i, h2⟩).outstanding_balance := by
  refine ⟨_, _, _, _, simulate_buyback_eq price contrib rate T hc hr0 hr1 hT,
    simulate_fixed_loan_eq (price - contrib) rate T hr0 hT, rfl, ?_, ?_⟩
  · rw [zxRows_length, loanRows_length]
  · intro i h1 h2
    have hi : i < T.toNat := by rwa [zxRows_length] at h1
    rw [zxRows_get _ _ _ _ _ _ _ _ hi, loanRows_get _ _ _ _ _ _ hi]
    exact ⟨rfl, rfl, rfl⟩

/-- Witness for C10 at `property_price = 1200`, contribution `200`, rate
`1/2`, `term_periods = 2`. -/
theorem buyback_refines_fixed_loan_witness :
    ((0 : ℚ) < 1200 ∧ (0 : ℚ) ≤ 200 ∧ (200 : ℚ) < 1200 ∧ (0 : ℚ) < 1/2 ∧
      (1 : ℚ)/2 < 1 ∧ (1 : ℤ) ≤ 2) ∧
    (∃ s1 m1 s2 m2,
      simulate_buyback 1200 200 (1/2) 2 = Except.ok (s1, m1) ∧
      simulate_fixed_loan (1200 - 200) (1/2) 2 = Except.ok (s2, m2) ∧
      m1.monthly_payment = m2.monthly_payment ∧
      s1.length = s2.length ∧
      ∀ i (h1 : i < s1.length) (h2 : i < s2.length),
        (s1.get ⟨i, h1⟩).rental_income = (s2.get ⟨i, h2⟩).interest_paid ∧
        (s1.get ⟨i, h1⟩).buyback_amount = (s2.get ⟨i, h2⟩).principal_paid ∧
        (s1.get ⟨i, h1⟩).nbfc_share_value = (s2.get ⟨i, h2⟩).outstanding_balance) :=
  ⟨⟨by norm_num, by norm_num, by norm_num, by norm_num, by norm_num, by norm_num⟩,
    buyback_refines_fixed_loan 1200 200 (1/2) 2 (by norm_num) (by norm_num) (by norm_num)
      (by norm_num) (by norm_num) (by norm_num)⟩

/-- C3 (code bug): the source contains no zero-rate special case.  At a
periodic rate of exactly 0 the EMI formula's denominator `(1+0)^T - 1` is
zero, so the payment computation fails with a zero-division error (Python's
`ZeroDivisionError`) for every principal and term, instead of returning
`P / T`. -/
theorem solve_payment_zero_rate_fails (P : ℚ) (T : ℕ) :
    solve_payment P 0 T = Except.error Err.zeroDivision := by
  simp [solve_payment]

lemma annuity_scenario_bounds :
    (62023914 : ℚ) / 1000 < annuity 8000000 (7 / 100 / 12) 240 ∧
      annuity 8000000 (7 / 100 / 12) 240 < (62023915 : ℚ) / 1000 := by
  have hd : (0 : ℚ) < (1 + 7 / 100 / 12) ^ 240 - 1 := by
    have h1 : (1 : ℚ) < (1 + 7 / 100 / 12) ^ 240 := one_lt_pow₀ (by norm_num) (by norm_num)
    linarith
  constructor
  · rw [annuity, lt_div_iff₀ hd]
    norm_num
  · rw [annuity, div_lt_iff₀ hd]
    norm_num

/-- C8 counterexample: at `principal = 8000000`, `annual_interest_rate =
0.07`, `term_periods = 240` the simulation's monthly payment differs from
the claimed 62023.76 by more than a tenth of a rupee (the code computes
≈ 62023.91), and the first-period principal component differs from the
claimed 15357.09 by more than a tenth (the code computes ≈ 15357.25). -/
theorem fixed_loan_scenario_claimed_figures_off :
    ∃ s m, simulate_fixed_loan 8000000 (7/100) 240 = Except.ok (s, m) ∧
      (1 : ℚ)/10 < |m.monthly_payment - (62023.76 : ℚ)| ∧
      (∀ row, s[0]? = some row → (1 : ℚ)/10 < |row.principal_paid - (15357.09 : ℚ)|) := by
  have key := annuity_scenario_bounds
  refine ⟨_, _, simulate_fixed_loan_eq 8000000 (7/100) 240 (by norm_num) (by norm_num),
    ?_, ?_⟩
  · show (1 : ℚ)/10 < |annuity 8000000 (7/100/12) ((240 : ℤ).toNat) - (62023.76 : ℚ)|
    rw [show ((240 : ℤ).toNat) = 240 from rfl]
    have h : (1 : ℚ)/10 < annuity 8000000 (7/100/12) 240 - (62023.76 : ℚ) := by
      have := key.1
      norm_num at this ⊢
      linarith
    exact lt_of_lt_of_le h (le_abs_self _)
  · intro row hrow
    rw [loanRows_getElem? _ _ _ _ _ _ (show 0 < (240 : ℤ).toNat by norm_num)] at hrow
    rw [← Option.some.inj hrow]
    show (1 : ℚ)/10 <
      |annuity 8000000 (7/100/12) ((240 : ℤ).toNat) -
        balIter (7/100/12) (annuity 8000000 (7/100/12) ((240 : ℤ).toNat)) 8000000 0 *
          (7/100/12) - (15357.09 : ℚ)|
    rw [show ((240 : ℤ).toNat) = 240 from rfl]
    rw [show balIter (7/100/12) (annuity 8000000 (7/100/12) 240) 8000000 0 = 8000000 from rfl]
    have h : (1 : ℚ)/10 <
        annuity 8000000 (7/100/12) 240 - 8000000 * (7/100/12) - (15357.09 : ℚ) := by
      have := key.1
      norm_num at this ⊢
      linarith
    exact lt_of_lt_of_le h (le_abs_self _)

/-- C8 amended: at `principal = 8000000`, `annual_interest_rate = 0.07`,
`term_periods = 240` the fixed-loan simulation yields a monthly payment
≈ 62023.91, a first-period interest ≈ 46666.67 and a first-period principal
component ≈ 15357.25 (each figure accurate to within 0.01). -/
theorem fixed_loan_concrete_scenario :
    ∃ s m, simulate_fixed_loan 8000000 (7/100) 240 = Except.ok (s, m) ∧
      |m.monthly_payment - (62023.91 : ℚ)| < (1 : ℚ)/100 ∧
      (∀ row, s[0]? = some row →
        |row.interest_paid - (46666.67 : ℚ)| < (1 : ℚ)/100 ∧
        |row.principal_paid - (15357.25 : ℚ)| < (1 : ℚ)/100) := by
  have key := annuity_scenario_bounds
  refine ⟨_, _, simulate_fixed_loan_eq 8000000 (7/100) 240 (by norm_num) (by norm_num),
    ?_, ?_⟩
  · show |annuity 8000000 (7/100/12) ((240 : ℤ).toNat) - (62023.91 : ℚ)| < (1 : ℚ)/100
    rw [show ((240 : ℤ).toNat) = 240 from rfl, abs_sub_lt_iff]
    constructor
    · have := key.2
      norm_num at this ⊢
      linarith
    · have := key.1
      norm_num at this ⊢
      linarith
  · intro row hrow
    rw [loanRows_getElem? _ _ _ _ _ _ (show 0 < (240 : ℤ).toNat by norm_num)] at hrow
    rw [← Option.some.inj hrow]
    constructor
    · show |balIter (7/100/12) (annuity 8000000 (7/100/12) ((240 : ℤ).toNat)) 8000000 0 *
          (7/100/12) - (46666.67 : ℚ)| < (1 : ℚ)/100
      rw [show balIter (7/100/12) (annuity 8000000 (7/100/12) ((240 : ℤ).toNat)) 8000000 0
          = 8000000 from rfl]
      rw [abs_sub_lt_iff]
      constructor <;> norm_num
    · show |annuity 8000000 (7/100/12) ((240 : ℤ).toNat) -
          balIter (7/100/12) (annuity 8000000 (7/100/12) ((240 : ℤ).toNat)) 8000000 0 *
            (7/100/12) - (15357.25 : ℚ)| < (1 : ℚ)/100
      rw [show ((240 : ℤ).toNat) = 240 from rfl]
      rw [show balIter (7/100/12) (annuity 8000000 (7/100/12) 240) 8000000 0
          = 8000000 from rfl]
      rw [abs_sub_lt_iff]
      constructor
      · have := key.2
        norm_num at this ⊢
        linarith
      · have := key.1
        norm_num at this ⊢
        linarith

/-- C9 counterexample: aggregation applied to a schedule with zero rows does
not fail with `EmptySchedule`: both aggregators are plain column sums with
no error path, and on an empty schedule they return a fully defined metrics
record whose totals are all zero. -/
theorem aggregate_empty_returns_metrics :
    zxAggregate 7 [] = ⟨7, 0, 0, 0, 0⟩ ∧ loanAggregate 7 [] = ⟨7, 0, 0, 0, 0⟩ :=
  ⟨rfl, rfl⟩

/-- C9 amended: metrics aggregation applied to a schedule with zero rows
succeeds, returning metrics whose totals are all zero; aggregation has no
error path. -/
theorem aggregate_empty_all_totals_zero (EMI : ℚ) :
    zxAggregate EMI [] = ⟨EMI, 0, 0, 0, 0⟩ ∧ loanAggregate EMI [] = ⟨EMI, 0, 0, 0, 0⟩ :=
  ⟨rfl, rfl⟩

end ZX
